import Mathlib

/-!
Verification development for the Polaris verification pipeline.

The repository is a Next.js application with one API route and one client
component.  The core under scrutiny is:

* the `POST /api/verify` handler: reads the uploaded file and an optional
  client-supplied hex digest, recomputes the SHA-256 digest server-side,
  rejects a mismatch with HTTP 400, otherwise produces a mock score and a
  timestamp-based identifier;
* the client helpers `computeSHA256` (browser-side SHA-256), `mockVerify`
  (local mock verifier) and `uploadAndVerify` (the fetch-with-fallback flow).

Embedding conventions: artifact bytes are `List Nat` (each entry a byte
value), JavaScript numbers are exact rationals `ℚ` (the computations at stake
stay well inside the range where binary64 arithmetic is faithful to the
idealized arithmetic; `Number(x.toFixed(2))` is decimal rounding to
hundredths, half away from zero on the positive values that occur here),
`Math.random()` results and `Date.now()` are explicit environment inputs, and
a `NextResponse.json(body, status)` is a body record paired with the HTTP
status code.  `null`-able strings are `Option String`; JavaScript string
truthiness (empty string is falsy) is modelled explicitly.
-/

set_option maxRecDepth 1000000

/-- Truncation to an unsigned 32-bit word, as performed implicitly by the
SHA-256 word operations. -/
def w32 (n : Nat) : Nat := n % 4294967296

/-- Right rotation of a 32-bit word: the low `n` bits move to the top. -/
def rotr32 (x n : Nat) : Nat := ((x % (1 <<< n)) <<< (32 - n)) ||| (x >>> n)

/-- SHA-256 `Ch(x,y,z)`, written in the mux form `z xor (x and (y xor z))`,
which agrees with `(x and y) xor (not x and z)` on 32-bit words. -/
def ch32 (x y z : Nat) : Nat := z ^^^ (x &&& (y ^^^ z))

/-- SHA-256 `Maj(x,y,z)`, written in the form `(x and y) xor (z and (x xor y))`,
which agrees with `(x and y) xor (x and z) xor (y and z)`. -/
def maj32 (x y z : Nat) : Nat := (x &&& y) ^^^ (z &&& (x ^^^ y))

/-- SHA-256 upper-case sigma 0 (rotations by 2, 13, 22). -/
def bigSigma0 (x : Nat) : Nat := (rotr32 x 2) ^^^ ((rotr32 x 13) ^^^ (rotr32 x 22))

/-- SHA-256 upper-case sigma 1 (rotations by 6, 11, 25). -/
def bigSigma1 (x : Nat) : Nat := (rotr32 x 6) ^^^ ((rotr32 x 11) ^^^ (rotr32 x 25))

/-- SHA-256 lower-case sigma 0 (rotations by 7, 18, shift by 3). -/
def smallSigma0 (x : Nat) : Nat := (rotr32 x 7) ^^^ ((rotr32 x 18) ^^^ (x >>> 3))

/-- SHA-256 lower-case sigma 1 (rotations by 17, 19, shift by 10). -/
def smallSigma1 (x : Nat) : Nat := (rotr32 x 17) ^^^ ((rotr32 x 19) ^^^ (x >>> 10))

/-- The 64 SHA-256 round constants, in decimal. -/
def K256 : List Nat :=
  [1116352408, 1899447441, 3049323471, 3921009573,
   961987163, 1508970993, 2453635748, 2870763221,
   3624381080, 310598401, 607225278, 1426881987,
   1925078388, 2162078206, 2614888103, 3248222580,
   3835390401, 4022224774, 264347078, 604807628,
   770255983, 1249150122, 1555081692, 1996064986,
   2554220882, 2821834349, 2952996808, 3210313671,
   3336571891, 3584528711, 113926993, 338241895,
   666307205, 773529912, 1294757372, 1396182291,
   1695183700, 1986661051, 2177026350, 2456956037,
   2730485921, 2820302411, 3259730800, 3345764771,
   3516065817, 3600352804, 4094571909, 275423344,
   430227734, 506948616, 659060556, 883997877,
   958139571, 1322822218, 1537002063, 1747873779,
   1955562222, 2024104815, 2227730452, 2361852424,
   2428436474, 2756734187, 3204031479, 3329325298]

/-- The eight SHA-256 initial state words, in decimal. -/
def initH : List Nat :=
  [1779033703, 3144134277, 1013904242, 2773480762,
   1359893119, 2600822924, 528734635, 1541459225]

/-- SHA-256 message padding: append `0x80`, zero bytes up to 56 mod 64, and
the original length in bits as an 8-byte big-endian integer. -/
def padBytes (msg : List Nat) : List Nat :=
  let len := msg.length
  let z := (119 - len % 64) % 64
  let bitLen := len * 8
  msg ++ 0x80 :: List.replicate z 0 ++
    [bitLen >>> 56 &&& 255, bitLen >>> 48 &&& 255, bitLen >>> 40 &&& 255, bitLen >>> 32 &&& 255,
     bitLen >>> 24 &&& 255, bitLen >>> 16 &&& 255, bitLen >>> 8 &&& 255, bitLen &&& 255]

/-- Group a byte list into big-endian 32-bit words. -/
def bytesToWords : List Nat → List Nat
  | a :: b :: c :: d :: rest => (((a * 256 + b) * 256 + c) * 256 + d) :: bytesToWords rest
  | _ => []

/-- Expand a 16-word block into the 64-word SHA-256 message schedule. -/
def msgSchedule (block : List Nat) : Array Nat :=
  (List.range 48).foldl
    (fun W i =>
      let t := i + 16
      W.push (w32 (smallSigma1 (W.getD (t - 2) 0) + W.getD (t - 7) 0 +
        smallSigma0 (W.getD (t - 15) 0) + W.getD (t - 16) 0)))
    block.toArray

/-- The 64 SHA-256 compression rounds applied to one scheduled block,
followed by the feed-forward addition of the incoming state. -/
def sha256rounds (W : Array Nat) (h : List Nat) : List Nat :=
  let s := (List.range 64).foldl
    (fun (s : Nat × Nat × Nat × Nat × Nat × Nat × Nat × Nat) t =>
      let (a, b, c, d, e, f, g, hh) := s
      let T1 := w32 (hh + bigSigma1 e + ch32 e f g + K256.getD t 0 + W.getD t 0)
      let T2 := w32 (bigSigma0 a + maj32 a b c)
      (w32 (T1 + T2), a, b, c, w32 (d + T1), e, f, g))
    (h.getD 0 0, h.getD 1 0, h.getD 2 0, h.getD 3 0,
     h.getD 4 0, h.getD 5 0, h.getD 6 0, h.getD 7 0)
  match s with
  | (a, b, c, d, e, f, g, hh) =>
    [w32 (h.getD 0 0 + a), w32 (h.getD 1 0 + b), w32 (h.getD 2 0 + c), w32 (h.getD 3 0 + d),
     w32 (h.getD 4 0 + e), w32 (h.getD 5 0 + f), w32 (h.getD 6 0 + g), w32 (h.getD 7 0 + hh)]

/-- Fold the compression function over the 16-word blocks of the padded
message.  The first argument is fuel bounding the number of blocks; it is
always called with at least one unit of fuel per remaining word. -/
def sha256blocksLoop : Nat → List Nat → List Nat → List Nat
  | 0, h, _ => h
  | _ + 1, h, [] => h
  | fuel + 1, h, w :: ws =>
    sha256blocksLoop fuel (sha256rounds (msgSchedule ((w :: ws).take 16)) h) ((w :: ws).drop 16)

/-- SHA-256 of a byte sequence, as the list of eight 32-bit state words. -/
def sha256words (msg : List Nat) : List Nat :=
  let ws := bytesToWords (padBytes msg)
  sha256blocksLoop ws.length initH ws

/-- Split a 32-bit word into four big-endian bytes. -/
def wordToBytes (w : Nat) : List Nat :=
  [w >>> 24 &&& 255, w >>> 16 &&& 255, w >>> 8 &&& 255, w &&& 255]

/-- SHA-256 of a byte sequence, as the 32-byte digest. -/
def sha256 (msg : List Nat) : List Nat :=
  ((sha256words msg).map wordToBytes).flatten

/-- Lowercase hexadecimal digit, as produced by `x.toString(16)` in the
client's `bytesToHex` and by node's `digest("hex")`. -/
def hexChar (n : Nat) : Char :=
  if n < 10 then Char.ofNat (48 + n) else Char.ofNat (87 + n)

/-- The client's `bytesToHex`: each byte becomes exactly two lowercase hex
characters (the `("00" + x.toString(16)).slice(-2)` idiom). -/
def bytesToHex (bs : List Nat) : String :=
  String.mk ((bs.map (fun x => [hexChar (x / 16 % 16), hexChar (x % 16)])).flatten)

/-- The digest both sides compute: the client's `computeSHA256` (SubtleCrypto
SHA-256 rendered through `bytesToHex`) and the server's
`crypto.createHash("sha256").update(buffer).digest("hex")` are the same
function of the bytes: lowercase-hex SHA-256. -/
def computeSHA256 (bytes : List Nat) : String := bytesToHex (sha256 bytes)

/-- `Number(x.toFixed(2))` on the nonnegative scores at stake: decimal
rounding to hundredths, ties rounded up, spelled out as
`⌊100 x + 1/2⌋ / 100` (which is `round (100 x) / 100`). -/
def toFixed2 (x : ℚ) : ℚ := ((⌊100 * x + 1 / 2⌋ : ℤ) : ℚ) / 100

/-- `x` sits exactly halfway between two integers, the tie case of decimal
rounding. -/
def halfTie (x : ℚ) : Prop := x - ⌊x⌋ = 1 / 2

instance (x : ℚ) : Decidable (halfTie x) := by
  unfold halfTie
  infer_instance

/-- The verdict message, from line 51 of the route handler (the identical
expression appears in `mockVerify`):
`randomScore > 0.8 ? "Likely Authentic" : randomScore > 0.65 ? "Uncertain" : "Likely AI-generated"`. -/
def scoreMessage (randomScore : ℚ) : String :=
  if randomScore > 0.8 then "Likely Authentic"
  else if randomScore > 0.65 then "Uncertain"
  else "Likely AI-generated"

/-- JavaScript truthiness of a nullable string: `null` and `""` are falsy. -/
def jsTruthyStr : Option String → Bool
  | none => false
  | some s => s != ""

/-- JavaScript `a || b` on a nullable string `a` and a string `b`. -/
def jsOrStr : Option String → String → String
  | some s, dflt => if s = "" then dflt else s
  | none, dflt => dflt

/-- The route handler's integrity guard `clientHash && clientHash !== serverHash`. -/
def hashMismatch (clientHash : Option String) (serverHash : String) : Bool :=
  jsTruthyStr clientHash && (clientHash.getD "" != serverHash)

/-- The JSON body of a `/api/verify` response.  Fields absent from a given
response are `none`. -/
structure VerifyBody where
  status : String
  message : Option String := none
  polarisId : Option String := none
  authenticityScore : Option ℚ := none
  aiProbability : Option ℚ := none
  hash : Option String := none
  hasExif : Option Bool := none
  camera : Option String := none
deriving DecidableEq

/-- A `NextResponse.json` value: body plus HTTP status code. -/
structure HttpResponse where
  body : VerifyBody
  httpStatus : Nat
deriving DecidableEq

/-- The route handler's environment: the two `Math.random()` draws (line 49
for the score, line 58 for the exif flag) and `Date.now()` (line 55). -/
structure ServerEnv where
  rand1 : ℚ
  rand2 : ℚ
  now : Nat

/-- The mock verifier's environment: the three `Math.random()` draws (score,
identifier suffix, exif flag). -/
structure MockEnv where
  rand1 : ℚ
  rand2 : ℚ
  rand3 : ℚ

/-- The `POST /api/verify` route handler.  `file` is the uploaded file's byte
content (`none` when the form carries no file), `clientHash` the optional
`hash` form field, `env` the ambient randomness and clock. -/
def POST (file : Option (List Nat)) (clientHash : Option String) (env : ServerEnv) : HttpResponse :=
  match file with
  | none => ⟨{ status := "error", message := some "No file uploaded" }, 400⟩
  | some buffer =>
    let serverHash := computeSHA256 buffer
    if hashMismatch clientHash serverHash then
      ⟨{ status := "error", message := some "Hash mismatch - file may be tampered" }, 400⟩
    else
      let randomScore : ℚ := 0.6 + env.rand1 * 0.35
      let aiProb : ℚ := 1 - randomScore
      ⟨{ status := "ok",
         polarisId := some ("PLS-" ++ toString env.now),
         authenticityScore := some (toFixed2 randomScore),
         aiProbability := some (toFixed2 aiProb),
         hasExif := some (decide (env.rand2 > 0.5)),
         hash := some (jsOrStr clientHash serverHash),
         message := some (scoreMessage randomScore) }, 200⟩

/-- `name.split(".")` on the character list of a file name. -/
def splitOnDot : List Char → List (List Char)
  | [] => [[]]
  | c :: rest =>
    let r := splitOnDot rest
    if c = '.' then [] :: r else (c :: r.headD []) :: r.tail

/-- `file.name.split(".").pop().toLowerCase()` from `mockVerify`. -/
def extOf (name : String) : String :=
  String.mk (((splitOnDot name.data).getLastD []).map Char.toLower)

/-- The client-side mock verifier (used when the backend call fails). -/
def mockVerify (fileName : String) (hash : Option String) (menv : MockEnv) : VerifyBody :=
  let ext := extOf fileName
  let isImage := (["jpg", "jpeg", "png", "webp"] : List String).contains ext
  let randomScore : ℚ := 0.6 + menv.rand1 * 0.35
  let aiProb : ℚ := 1 - randomScore
  { status := "ok",
    polarisId := some ("PLS-MOCK-" ++ toString ⌊menv.rand2 * 1000000⌋),
    authenticityScore := some (toFixed2 randomScore),
    aiProbability := some (toFixed2 aiProb),
    hasExif := some (if isImage then decide (menv.rand3 > 0.4) else false),
    camera := if isImage then some "MockCam 1.0" else none,
    hash := hash,
    message := some (scoreMessage randomScore) }

/-- `resp.ok` of the Fetch API: HTTP status in the 200-299 range. -/
def respOk (r : HttpResponse) : Bool :=
  decide (200 ≤ r.httpStatus) && decide (r.httpStatus < 300)

/-- The client's `uploadAndVerify` flow with the network reachable: build the
form (the `hash` field only when the stored hash is truthy), call the
endpoint, and on a non-ok response fall back to `mockVerify`.  `none` is the
early return when no file is selected (no result is set). -/
def uploadAndVerify (file : Option (List Nat × String)) (hash : Option String)
    (senv : ServerEnv) (menv : MockEnv) : Option VerifyBody :=
  match file with
  | none => none
  | some (bytes, name) =>
    let formHash := if jsTruthyStr hash then hash else none
    let resp := POST (some bytes) formHash senv
    if respOk resp then some resp.body else some (mockVerify name hash menv)

/-- Case-insensitive equality of two strings, ASCII letter case folded. -/
def eqUpToCase (s t : String) : Bool :=
  s.data.map Char.toLower == t.data.map Char.toLower

/-! ### Helper lemmas about the integrity guard -/

/-- `toFixed2` agrees with Mathlib's `round` scaled by 100. -/
theorem toFixed2_eq_round (x : ℚ) :
    toFixed2 x = ((round (100 * x) : ℤ) : ℚ) / 100 := by
  rw [toFixed2, round_eq]

/-- A file-less request is answered with the missing-file error. -/
theorem POST_none (clientHash : Option String) (env : ServerEnv) :
    POST none clientHash env
      = ⟨{ status := "error", message := some "No file uploaded" }, 400⟩ := rfl

/-- A tripped guard yields the fixed mismatch response. -/
theorem POST_err_body (bytes : List Nat) (clientHash : Option String) (env : ServerEnv)
    (h : hashMismatch clientHash (computeSHA256 bytes) = true) :
    POST (some bytes) clientHash env =
      ⟨{ status := "error", message := some "Hash mismatch - file may be tampered" }, 400⟩ := by
  simp only [POST]
  rw [h]
  rfl

/-- An untripped guard yields the success response, spelled out. -/
theorem POST_ok_body (bytes : List Nat) (clientHash : Option String) (env : ServerEnv)
    (h : hashMismatch clientHash (computeSHA256 bytes) = false) :
    POST (some bytes) clientHash env =
      ⟨{ status := "ok",
         polarisId := some ("PLS-" ++ toString env.now),
         authenticityScore := some (toFixed2 (0.6 + env.rand1 * 0.35)),
         aiProbability := some (toFixed2 (1 - (0.6 + env.rand1 * 0.35))),
         hasExif := some (decide (env.rand2 > 0.5)),
         hash := some (jsOrStr clientHash (computeSHA256 bytes)),
         message := some (scoreMessage (0.6 + env.rand1 * 0.35)) }, 200⟩ := by
  simp only [POST]
  rw [h]
  rfl

/-- A truthy claimed hash different from the server hash trips the guard. -/
theorem hashMismatch_some_of_ne {d s : String} (hd : d ≠ "") (hne : d ≠ s) :
    hashMismatch (some d) s = true := by
  simp [hashMismatch, jsTruthyStr, hd, hne]

/-- A claimed hash equal to the server hash never trips the guard. -/
theorem hashMismatch_some_self (s : String) : hashMismatch (some s) s = false := by
  simp [hashMismatch]

/-- On a tripped guard the handler answers with the fixed mismatch response. -/
theorem POST_mismatch (bytes : List Nat) (d : String) (env : ServerEnv)
    (hd : d ≠ "") (hne : d ≠ computeSHA256 bytes) :
    POST (some bytes) (some d) env =
      ⟨{ status := "error", message := some "Hash mismatch - file may be tampered" }, 400⟩ := by
  simp only [POST]
  rw [hashMismatch_some_of_ne hd hne]
  rfl

/-! ### The claims -/

/-- Claim C1: an upload that supplies a well-formed (64-character) claimed
digest different from the server-computed SHA-256 hex digest of the uploaded
bytes is answered with status "error", the digest-mismatch message and HTTP
400; the response body carries no identifier and no score fields, so no score
is computed and no verification record is built. -/
theorem digest_mismatch_rejected (bytes : List Nat) (d : String) (env : ServerEnv)
    (hlen : d.length = 64) (hne : d ≠ computeSHA256 bytes) :
    POST (some bytes) (some d) env =
      ⟨{ status := "error", message := some "Hash mismatch - file may be tampered" }, 400⟩ := by
  have hd : d ≠ "" := by
    intro h
    subst h
    exact absurd hlen (by decide)
  exact POST_mismatch bytes d env hd hne

/-- Witness for `digest_mismatch_rejected`: the all-zero 64-character hex
string claimed for the empty upload (spec Scenario 3). -/
theorem digest_mismatch_rejected_witness :
    ("0000000000000000000000000000000000000000000000000000000000000000" : String).length = 64
    ∧ "0000000000000000000000000000000000000000000000000000000000000000" ≠ computeSHA256 []
    ∧ POST (some [])
        (some "0000000000000000000000000000000000000000000000000000000000000000") ⟨0, 0, 0⟩
        = ⟨{ status := "error", message := some "Hash mismatch - file may be tampered" }, 400⟩ :=
  ⟨by decide, by decide, digest_mismatch_rejected [] _ ⟨0, 0, 0⟩ (by decide) (by decide)⟩

/-- Claim C6 counterexample: a claimed digest equal to the authoritative
digest of the byte `0x61` up to ASCII letter case (its uppercase form) does
not pass the gate: the handler rejects it with status "error" and HTTP 400,
because line 41 compares with the case-sensitive `!==`. -/
theorem gate_case_sensitive_cex :
    eqUpToCase "CA978112CA1BBDCAFAC231B39A23DC4DA786EFF8147C4E72B9807785AFEE48BB"
      (computeSHA256 [97]) = true
    ∧ (POST (some [97])
        (some "CA978112CA1BBDCAFAC231B39A23DC4DA786EFF8147C4E72B9807785AFEE48BB")
        ⟨0, 0, 0⟩).body.status = "error"
    ∧ (POST (some [97])
        (some "CA978112CA1BBDCAFAC231B39A23DC4DA786EFF8147C4E72B9807785AFEE48BB")
        ⟨0, 0, 0⟩).httpStatus = 400 := by
  decide

/-- Claim C6 amended: the integrity gate's test is exact, case-sensitive
string equality: a nonempty claimed digest passes (the request succeeds) if
and only if it equals the authoritative lowercase hex digest byte for byte. -/
theorem gate_exact_string_equality (bytes : List Nat) (d : String) (env : ServerEnv)
    (hd : d ≠ "") :
    ((POST (some bytes) (some d) env).body.status = "ok" ↔ d = computeSHA256 bytes) := by
  constructor
  · intro hok
    by_contra hne
    rw [POST_mismatch bytes d env hd hne] at hok
    exact absurd hok (by decide)
  · intro he
    subst he
    simp only [POST]
    rw [hashMismatch_some_self]
    rfl

/-- Witness for `gate_exact_string_equality`: the exact lowercase digest of
the empty byte sequence passes the gate. -/
theorem gate_exact_string_equality_witness :
    ("e3b0c44298fc1c149afbf4c8996fb92427ae41e4649b934ca495991b7852b855" : String) ≠ ""
    ∧ ((POST (some [])
          (some "e3b0c44298fc1c149afbf4c8996fb92427ae41e4649b934ca495991b7852b855")
          ⟨0, 0, 0⟩).body.status = "ok"
        ↔ "e3b0c44298fc1c149afbf4c8996fb92427ae41e4649b934ca495991b7852b855"
          = computeSHA256 []) :=
  ⟨by decide, gate_exact_string_equality [] _ ⟨0, 0, 0⟩ (by decide)⟩

/-- Claim C7 counterexample: an upload whose byte sequence is empty is not
rejected: the handler only tests for an absent file field, so the empty file
is hashed and scored, yielding status "ok" with HTTP 200 and a score. -/
theorem empty_file_scored_cex :
    (POST (some []) none ⟨0, 0, 0⟩).body.status = "ok"
    ∧ (POST (some []) none ⟨0, 0, 0⟩).httpStatus = 200
    ∧ (POST (some []) none ⟨0, 0, 0⟩).body.authenticityScore ≠ none := by
  decide

/-- Claim C7 amended: only a missing file field produces the missing-artifact
error ("No file uploaded", status "error", HTTP 400); an upload whose file is
present but empty is accepted and scored (status "ok"). -/
theorem missing_file_only_rejection :
    (∀ (clientHash : Option String) (env : ServerEnv),
      POST none clientHash env = ⟨{ status := "error", message := some "No file uploaded" }, 400⟩)
    ∧ (∀ env : ServerEnv,
      (POST (some []) none env).body.status = "ok" ∧ (POST (some []) none env).httpStatus = 200) :=
  ⟨fun _ _ => rfl, fun _ => ⟨rfl, rfl⟩⟩

/-- Claim C9: the digest is a pure, deterministic function of the bytes
alone: the digest of record reported for the same bytes is the same across
requests with arbitrary clocks and random draws (no salting, no randomness),
and equals the lowercase hex SHA-256 of the bytes. -/
theorem digest_deterministic (bytes : List Nat) (env1 env2 : ServerEnv) :
    (POST (some bytes) none env1).body.hash = some (computeSHA256 bytes)
    ∧ (POST (some bytes) none env1).body.hash = (POST (some bytes) none env2).body.hash
    ∧ computeSHA256 bytes = computeSHA256 bytes :=
  ⟨rfl, rfl, rfl⟩

/-- Claim C10: every success response reports as `hash` exactly the
server-computed lowercase hex SHA-256 digest of the uploaded bytes, whether
or not a claimed hash was supplied. -/
theorem ok_response_hash_is_server_digest (bytes : List Nat) (clientHash : Option String)
    (env : ServerEnv) (hok : (POST (some bytes) clientHash env).body.status = "ok") :
    (POST (some bytes) clientHash env).body.hash = some (computeSHA256 bytes) := by
  rcases clientHash with _ | d
  · rfl
  · by_cases hd : d = ""
    · subst hd
      rfl
    · by_cases he : d = computeSHA256 bytes
      · subst he
        simp only [POST]
        rw [hashMismatch_some_self]
        simp [jsOrStr]
      · rw [POST_mismatch bytes d env hd he] at hok
        exact absurd hok (by decide)

/-- Witness for `ok_response_hash_is_server_digest`: a success response for
the empty upload with no claimed hash. -/
theorem ok_response_hash_witness :
    (POST (some []) none ⟨0, 0, 0⟩).body.status = "ok"
    ∧ (POST (some []) none ⟨0, 0, 0⟩).body.hash = some (computeSHA256 []) :=
  ⟨by decide, ok_response_hash_is_server_digest [] none ⟨0, 0, 0⟩ (by decide)⟩

/-- Claim C3 counterexample: two verifications of identical content (the
empty byte sequence, identical digest of record) performed at clock values 0
and 1 return the distinct identifiers "PLS-0" and "PLS-1". -/
theorem polaris_id_timestamp_cex :
    (POST (some []) none ⟨0, 0, 0⟩).body.hash = (POST (some []) none ⟨0, 0, 1⟩).body.hash
    ∧ (POST (some []) none ⟨0, 0, 0⟩).body.polarisId = some "PLS-0"
    ∧ (POST (some []) none ⟨0, 0, 1⟩).body.polarisId = some "PLS-1"
    ∧ (POST (some []) none ⟨0, 0, 0⟩).body.polarisId
        ≠ (POST (some []) none ⟨0, 0, 1⟩).body.polarisId := by
  decide

/-- Claim C3 amended: the record identifier is `PLS-` followed by the
request's wall-clock value (`Date.now()`); it is a function of the clock
alone, not of the digest or a policy version, so re-verifying identical
content at a different clock value yields a different identifier. -/
theorem polaris_id_is_timestamp (file : Option (List Nat)) (clientHash : Option String)
    (env : ServerEnv) (hok : (POST file clientHash env).body.status = "ok") :
    (POST file clientHash env).body.polarisId = some ("PLS-" ++ toString env.now) := by
  rcases file with _ | bytes
  · rw [POST_none] at hok
    exact absurd hok (by decide)
  · rcases Bool.eq_false_or_eq_true (hashMismatch clientHash (computeSHA256 bytes)) with hg | hg
    · rw [POST_err_body bytes clientHash env hg] at hok
      exact absurd hok (by decide)
    · rw [POST_ok_body bytes clientHash env hg]

/-- Witness for `polaris_id_is_timestamp`: at clock value 5 the identifier is
`PLS-5`. -/
theorem polaris_id_is_timestamp_witness :
    (POST (some []) none ⟨0, 0, 5⟩).body.status = "ok"
    ∧ (POST (some []) none ⟨0, 0, 5⟩).body.polarisId = some ("PLS-" ++ toString (5 : Nat)) :=
  ⟨by decide, polaris_id_is_timestamp (some []) none ⟨0, 0, 5⟩ (by decide)⟩

/-- Claim C2 counterexample: for a claimed digest of 64 ones on the empty
upload the server rejects with status "error" (integrity failure), yet the
client flow, seeing the non-ok response, falls back to the local mock
verifier and hands the caller a mock result that carries an authenticity
score. -/
theorem client_fallback_after_mismatch_cex :
    (POST (some [])
        (some "1111111111111111111111111111111111111111111111111111111111111111")
        ⟨0, 0, 0⟩).body.status = "error"
    ∧ uploadAndVerify (some ([], "f.png"))
        (some "1111111111111111111111111111111111111111111111111111111111111111")
        ⟨0, 0, 0⟩ ⟨0, 0, 0⟩
        = some (mockVerify "f.png"
            (some "1111111111111111111111111111111111111111111111111111111111111111")
            ⟨0, 0, 0⟩)
    ∧ (mockVerify "f.png"
        (some "1111111111111111111111111111111111111111111111111111111111111111")
        ⟨0, 0, 0⟩).authenticityScore ≠ none := by
  refine ⟨by decide, by rfl, by decide⟩

/-- Claim C2 amended: the server endpoint itself is terminal on an integrity
failure: status "error" and no score in its response.  The client flow is
not: on any non-ok response, the digest-mismatch rejection included, it falls
back to the local `mockVerify` and returns the mock verdict (which carries a
score) to the caller. -/
theorem server_terminal_client_falls_back (bytes : List Nat) (fileName : String) (d : String)
    (senv : ServerEnv) (menv : MockEnv) (hd : d ≠ "") (hne : d ≠ computeSHA256 bytes) :
    (POST (some bytes) (some d) senv).body.status = "error"
    ∧ (POST (some bytes) (some d) senv).body.authenticityScore = none
    ∧ uploadAndVerify (some (bytes, fileName)) (some d) senv menv
        = some (mockVerify fileName (some d) menv) := by
  have hp := POST_mismatch bytes d senv hd hne
  refine ⟨by rw [hp], by rw [hp], ?_⟩
  simp only [uploadAndVerify]
  rw [show (if jsTruthyStr (some d) then some d else none) = some d from by
    simp [jsTruthyStr, hd]]
  rw [hp]
  rfl

/-- Witness for `server_terminal_client_falls_back`: a wrong 64-character
claimed digest for the one-byte upload `0x61`. -/
theorem server_terminal_client_falls_back_witness :
    (("1111111111111111111111111111111111111111111111111111111111111111" : String) ≠ ""
    ∧ "1111111111111111111111111111111111111111111111111111111111111111"
        ≠ computeSHA256 [97])
    ∧ ((POST (some [97])
          (some "1111111111111111111111111111111111111111111111111111111111111111")
          ⟨0, 0, 0⟩).body.status = "error"
      ∧ (POST (some [97])
          (some "1111111111111111111111111111111111111111111111111111111111111111")
          ⟨0, 0, 0⟩).body.authenticityScore = none
      ∧ uploadAndVerify (some ([97], "demo.png"))
          (some "1111111111111111111111111111111111111111111111111111111111111111")
          ⟨0, 0, 0⟩ ⟨0, 0, 0⟩
          = some (mockVerify "demo.png"
              (some "1111111111111111111111111111111111111111111111111111111111111111")
              ⟨0, 0, 0⟩)) :=
  ⟨⟨by decide, by decide⟩,
    server_terminal_client_falls_back [97] "demo.png" _ ⟨0, 0, 0⟩ ⟨0, 0, 0⟩
      (by decide) (by decide)⟩

/-- Claim C5 counterexample: at the exact boundary score 0.65 (random draw
1/7) the verdict is "Likely AI-generated" (the Synthetic label), not
"Uncertain": the `>` comparison at 0.65 is strict, mirroring the one at
0.80. -/
theorem label_boundary_cex :
    (0.6 : ℚ) + (1 / 7) * 0.35 = 0.65
    ∧ (POST (some []) none ⟨1 / 7, 0, 0⟩).body.status = "ok"
    ∧ (POST (some []) none ⟨1 / 7, 0, 0⟩).body.message = some "Likely AI-generated"
    ∧ (POST (some []) none ⟨1 / 7, 0, 0⟩).body.message ≠ some "Uncertain" := by
  have h1 : (0.6 : ℚ) + (1 / 7) * 0.35 = 0.65 := by norm_num
  have hmsg : (POST (some []) none ⟨1 / 7, 0, 0⟩).body.message
      = some (scoreMessage ((0.6 : ℚ) + (1 / 7) * 0.35)) := by
    rw [POST_ok_body [] none ⟨1 / 7, 0, 0⟩ rfl]
  have hsm : scoreMessage ((0.6 : ℚ) + (1 / 7) * 0.35) = "Likely AI-generated" := by
    rw [h1]
    norm_num [scoreMessage]
  refine ⟨h1, by rw [POST_ok_body [] none ⟨1 / 7, 0, 0⟩ rfl], by rw [hmsg, hsm], ?_⟩
  rw [hmsg, hsm]
  decide

/-- Claim C5 amended: the verdict label is derived from the pre-rounding
score by the fixed strict thresholds (`> 0.80` Authentic, `> 0.65` Uncertain,
otherwise Synthetic); exactly at the boundaries a score of 0.80 yields
"Uncertain" (not "Likely Authentic") and a score of 0.65 yields
"Likely AI-generated" (Synthetic), not "Uncertain". -/
theorem label_thresholds :
    (∀ (bytes : List Nat) (clientHash : Option String) (env : ServerEnv),
      (POST (some bytes) clientHash env).body.status = "ok" →
      (POST (some bytes) clientHash env).body.message
        = some (scoreMessage (0.6 + env.rand1 * 0.35)))
    ∧ scoreMessage 0.8 = "Uncertain"
    ∧ scoreMessage 0.65 = "Likely AI-generated"
    ∧ (∀ s : ℚ, 0.8 < s → scoreMessage s = "Likely Authentic")
    ∧ (∀ s : ℚ, 0.65 < s → s ≤ 0.8 → scoreMessage s = "Uncertain")
    ∧ (∀ s : ℚ, s ≤ 0.65 → scoreMessage s = "Likely AI-generated") := by
  refine ⟨?_, by norm_num [scoreMessage], by norm_num [scoreMessage], ?_, ?_, ?_⟩
  · intro bytes clientHash env hok
    rcases Bool.eq_false_or_eq_true (hashMismatch clientHash (computeSHA256 bytes)) with hg | hg
    · rw [POST_err_body bytes clientHash env hg] at hok
      exact absurd hok (by decide)
    · rw [POST_ok_body bytes clientHash env hg]
  · intro s hs
    simp only [scoreMessage]
    rw [if_pos hs]
  · intro s h1 h2
    simp only [scoreMessage]
    rw [if_neg (not_lt.mpr h2), if_pos h1]
  · intro s h1
    simp only [scoreMessage]
    rw [if_neg (not_lt.mpr (le_trans h1 (by norm_num))), if_neg (not_lt.mpr h1)]

/-- Witness for `label_thresholds`: the empty upload with no claimed hash
succeeds and its message is the verdict for its pre-rounding score. -/
theorem label_thresholds_witness :
    (POST (some []) none ⟨0, 0, 0⟩).body.status = "ok"
    ∧ (POST (some []) none ⟨0, 0, 0⟩).body.message
        = some (scoreMessage (0.6 + (0 : ℚ) * 0.35)) :=
  ⟨by decide, label_thresholds.1 [] none ⟨0, 0, 0⟩ (by decide)⟩

/-! ### Rounding lemmas for the score complement and range -/

/-- The floors realizing `round x` and `round (100 - x)` sum to 100, except
at a rounding tie of `x`, where rounding both halves up makes the sum 101. -/
theorem floor_round_compl (x : ℚ) :
    (halfTie x → ⌊x + 1 / 2⌋ + ⌊100 - x + 1 / 2⌋ = 101)
    ∧ (¬ halfTie x → ⌊x + 1 / 2⌋ + ⌊100 - x + 1 / 2⌋ = 100) := by
  constructor
  · intro h
    unfold halfTie at h
    have hx : x = (⌊x⌋ : ℚ) + 1 / 2 := by linarith
    have h1 : ⌊x + 1 / 2⌋ = ⌊x⌋ + 1 := by
      rw [show x + 1 / 2 = ((⌊x⌋ + 1 : ℤ) : ℚ) from by push_cast; linarith]
      exact Int.floor_intCast _
    have h2 : ⌊100 - x + 1 / 2⌋ = 100 - ⌊x⌋ := by
      rw [show (100 : ℚ) - x + 1 / 2 = ((100 - ⌊x⌋ : ℤ) : ℚ) from by push_cast; linarith]
      exact Int.floor_intCast _
    rw [h1, h2]
    ring
  · intro h
    have hb1 : ((⌊x + 1 / 2⌋ : ℤ) : ℚ) ≤ x + 1 / 2 := Int.floor_le _
    have hb2 : x + 1 / 2 < (⌊x + 1 / 2⌋ : ℚ) + 1 := Int.lt_floor_add_one _
    have hne : ((⌊x + 1 / 2⌋ : ℤ) : ℚ) ≠ x + 1 / 2 := by
      intro he
      apply h
      unfold halfTie
      have hfl : ⌊x⌋ = ⌊x + 1 / 2⌋ - 1 := by
        apply Int.floor_eq_iff.mpr
        constructor
        · push_cast
          linarith
        · push_cast
          linarith
      rw [hfl]
      push_cast
      linarith
    have hlt : ((⌊x + 1 / 2⌋ : ℤ) : ℚ) < x + 1 / 2 := lt_of_le_of_ne hb1 hne
    have h2 : ⌊100 - x + 1 / 2⌋ = 100 - ⌊x + 1 / 2⌋ := by
      apply Int.floor_eq_iff.mpr
      constructor
      · push_cast
        linarith
      · push_cast
        linarith
    rw [h2]
    ring

/-- The sum of the two rounded complementary scores: exactly 1 away from a
tie, and within 1/100 of 1 unconditionally. -/
theorem toFixed2_complement (s : ℚ) :
    (¬ halfTie (100 * s) → toFixed2 s + toFixed2 (1 - s) = 1)
    ∧ |toFixed2 s + toFixed2 (1 - s) - 1| ≤ 1 / 100 := by
  have hsum : toFixed2 s + toFixed2 (1 - s)
      = ((⌊100 * s + 1 / 2⌋ + ⌊100 - 100 * s + 1 / 2⌋ : ℤ) : ℚ) / 100 := by
    unfold toFixed2
    rw [show (100 : ℚ) * (1 - s) + 1 / 2 = 100 - 100 * s + 1 / 2 from by ring]
    push_cast
    ring
  constructor
  · intro h
    rw [hsum, (floor_round_compl (100 * s)).2 h]
    norm_num
  · by_cases h : halfTie (100 * s)
    · rw [hsum, (floor_round_compl (100 * s)).1 h, abs_le]
      constructor <;> norm_num
    · rw [hsum, (floor_round_compl (100 * s)).2 h, abs_le]
      constructor <;> norm_num

/-- The rounded score stays inside `[0.60, 0.95]` whenever the random draw is
in `[0, 1)`. -/
theorem toFixed2_range (r : ℚ) (h0 : 0 ≤ r) (h1 : r < 1) :
    0.6 ≤ toFixed2 (0.6 + r * 0.35) ∧ toFixed2 (0.6 + r * 0.35) ≤ 0.95 := by
  have hf0 : (60 : ℤ) ≤ ⌊100 * ((0.6 : ℚ) + r * 0.35) + 1 / 2⌋ := by
    apply Int.le_floor.mpr
    push_cast
    nlinarith
  have hf1 : ⌊100 * ((0.6 : ℚ) + r * 0.35) + 1 / 2⌋ < 96 := by
    apply Int.floor_lt.mpr
    push_cast
    nlinarith
  have hf1' : ⌊100 * ((0.6 : ℚ) + r * 0.35) + 1 / 2⌋ ≤ 95 := by omega
  unfold toFixed2
  constructor
  · rw [le_div_iff₀ (by norm_num : (0 : ℚ) < 100)]
    calc (0.6 : ℚ) * 100 = ((60 : ℤ) : ℚ) := by norm_num
    _ ≤ _ := by exact_mod_cast hf0
  · rw [div_le_iff₀ (by norm_num : (0 : ℚ) < 100)]
    calc ((⌊100 * ((0.6 : ℚ) + r * 0.35) + 1 / 2⌋ : ℤ) : ℚ) ≤ ((95 : ℤ) : ℚ) := by
          exact_mod_cast hf1'
    _ = 0.95 * 100 := by norm_num

/-- Claim C8: every `authenticityScore` the reference scorer reports (server
route and client mock alike) lies in `[0.60, 0.95]`, given that the
`Math.random()` draw lies in `[0, 1)`. -/
theorem score_range :
    (∀ (bytes : List Nat) (clientHash : Option String) (env : ServerEnv) (q : ℚ),
      0 ≤ env.rand1 → env.rand1 < 1 →
      (POST (some bytes) clientHash env).body.authenticityScore = some q →
      0.6 ≤ q ∧ q ≤ 0.95)
    ∧ (∀ (fileName : String) (hash : Option String) (menv : MockEnv) (q : ℚ),
      0 ≤ menv.rand1 → menv.rand1 < 1 →
      (mockVerify fileName hash menv).authenticityScore = some q →
      0.6 ≤ q ∧ q ≤ 0.95) := by
  constructor
  · intro bytes clientHash env q h0 h1 hq
    rcases Bool.eq_false_or_eq_true (hashMismatch clientHash (computeSHA256 bytes)) with hg | hg
    · rw [POST_err_body bytes clientHash env hg] at hq
      exact Option.noConfusion hq
    · rw [POST_ok_body bytes clientHash env hg] at hq
      injection hq with hq
      subst hq
      exact toFixed2_range env.rand1 h0 h1
  · intro fileName hash menv q h0 h1 hq
    have hv : (mockVerify fileName hash menv).authenticityScore
        = some (toFixed2 (0.6 + menv.rand1 * 0.35)) := rfl
    rw [hv] at hq
    injection hq with hq
    subst hq
    exact toFixed2_range menv.rand1 h0 h1

/-- Witness for `score_range`: the empty upload with random draw 0. -/
theorem score_range_witness :
    ((0 : ℚ) ≤ 0 ∧ (0 : ℚ) < 1
      ∧ (POST (some []) none ⟨0, 0, 0⟩).body.authenticityScore
          = some (toFixed2 (0.6 + (0 : ℚ) * 0.35)))
    ∧ (0.6 ≤ toFixed2 ((0.6 : ℚ) + 0 * 0.35) ∧ toFixed2 ((0.6 : ℚ) + 0 * 0.35) ≤ 0.95) :=
  ⟨⟨le_refl 0, zero_lt_one, rfl⟩,
    score_range.1 [] none ⟨0, 0, 0⟩ (toFixed2 (0.6 + 0 * 0.35)) (le_refl 0) zero_lt_one rfl⟩

/-- Claim C4: in every score result (server route and client mock alike) the
reported `aiProbability` is the rounding of `1 − randomScore` for the very
same pre-rounding `randomScore` whose rounding is the reported
`authenticityScore` — the two are never independently produced.  Their sum is
exactly 1 whenever the pre-rounding score is not a half-cent rounding tie
(the generic case; the tie is the boundary artifact covered by the claim's
floating-point tolerance) and is unconditionally within 0.01 of 1. -/
theorem score_complement :
    (∀ (bytes : List Nat) (clientHash : Option String) (env : ServerEnv) (q a : ℚ),
      (POST (some bytes) clientHash env).body.authenticityScore = some q →
      (POST (some bytes) clientHash env).body.aiProbability = some a →
      q = toFixed2 (0.6 + env.rand1 * 0.35)
      ∧ a = toFixed2 (1 - (0.6 + env.rand1 * 0.35))
      ∧ (¬ halfTie (100 * (0.6 + env.rand1 * 0.35)) → q + a = 1)
      ∧ |q + a - 1| ≤ 1 / 100)
    ∧ (∀ (fileName : String) (hash : Option String) (menv : MockEnv) (q a : ℚ),
      (mockVerify fileName hash menv).authenticityScore = some q →
      (mockVerify fileName hash menv).aiProbability = some a →
      q = toFixed2 (0.6 + menv.rand1 * 0.35)
      ∧ a = toFixed2 (1 - (0.6 + menv.rand1 * 0.35))
      ∧ (¬ halfTie (100 * (0.6 + menv.rand1 * 0.35)) → q + a = 1)
      ∧ |q + a - 1| ≤ 1 / 100) := by
  constructor
  · intro bytes clientHash env q a hq ha
    rcases Bool.eq_false_or_eq_true (hashMismatch clientHash (computeSHA256 bytes)) with hg | hg
    · rw [POST_err_body bytes clientHash env hg] at hq
      exact Option.noConfusion hq
    · rw [POST_ok_body bytes clientHash env hg] at hq ha
      injection hq with hq
      injection ha with ha
      subst hq
      subst ha
      exact ⟨rfl, rfl, (toFixed2_complement _).1, (toFixed2_complement _).2⟩
  · intro fileName hash menv q a hq ha
    have hv : (mockVerify fileName hash menv).authenticityScore
        = some (toFixed2 (0.6 + menv.rand1 * 0.35)) := rfl
    have hw : (mockVerify fileName hash menv).aiProbability
        = some (toFixed2 (1 - (0.6 + menv.rand1 * 0.35))) := rfl
    rw [hv] at hq
    rw [hw] at ha
    injection hq with hq
    injection ha with ha
    subst hq
    subst ha
    exact ⟨rfl, rfl, (toFixed2_complement _).1, (toFixed2_complement _).2⟩

/-- Witness for `score_complement`: the empty upload with random draw 0. -/
theorem score_complement_witness :
    ((POST (some []) none ⟨0, 0, 0⟩).body.authenticityScore
        = some (toFixed2 (0.6 + (0 : ℚ) * 0.35))
      ∧ (POST (some []) none ⟨0, 0, 0⟩).body.aiProbability
        = some (toFixed2 (1 - (0.6 + (0 : ℚ) * 0.35))))
    ∧ (toFixed2 ((0.6 : ℚ) + 0 * 0.35) = toFixed2 (0.6 + 0 * 0.35)
      ∧ toFixed2 (1 - ((0.6 : ℚ) + 0 * 0.35)) = toFixed2 (1 - (0.6 + 0 * 0.35))
      ∧ (¬ halfTie (100 * ((0.6 : ℚ) + 0 * 0.35)) →
          toFixed2 ((0.6 : ℚ) + 0 * 0.35) + toFixed2 (1 - ((0.6 : ℚ) + 0 * 0.35)) = 1)
      ∧ |toFixed2 ((0.6 : ℚ) + 0 * 0.35) + toFixed2 (1 - ((0.6 : ℚ) + 0 * 0.35)) - 1|
          ≤ 1 / 100) :=
  ⟨⟨rfl, rfl⟩, score_complement.1 [] none ⟨0, 0, 0⟩ _ _ rfl rfl⟩
